import Mathlib

/-!
# FinalLab: patient handlers and HTTP dispatch

A shallow embedding of `src/controllers/paciente_controller.js`,
`src/routers/swagger_routes.js`, `src/routers/paciente_routes.js` and
`src/server.js`.

The document store is an explicit value (`Almacen`) threaded through every
handler. A handler returns the responses it sent, the store it left, the store
operations it issued and whether an exception escaped it.
-/

namespace FinalLab

/-! ## Data model -/

/-- JSON values found in request bodies and in stored documents. -/
inductive Valor where
  | str (s : String)
  | num (n : Int)
  | bool (b : Bool)
  | nulo
  deriving DecidableEq, Repr

/-- A JavaScript object with scalar values: keys in insertion order. -/
abbrev Cuerpo := List (String × Valor)

/-- Modelled from the spec: `models/Veterinario.js` is not part of the sources.
A veterinarian has an identifier, a name and a surname (the fields the patient
handlers read). -/
structure Veterinario where
  _id : String
  nombre : String
  apellido : String
  deriving DecidableEq, Repr

/-- Modelled from the spec: `models/Paciente.js` is not part of the sources.
A patient document is its store identifier and its fields; `estado` and
`veterinario` are fields of the document like any other. -/
structure Paciente where
  _id : String
  campos : Cuerpo
  deriving DecidableEq, Repr

/-- The soft-delete flag of a patient: `estado` is the boolean `true`. -/
def Paciente.estado (p : Paciente) : Bool :=
  p.campos.lookup "estado" == some (Valor.bool true)

/-- The owner reference of a patient, when the document has one. -/
def Paciente.veterinario (p : Paciente) : Option Valor :=
  p.campos.lookup "veterinario"

/-- The two collections of the document store. -/
structure Almacen where
  pacientes : List Paciente
  veterinarios : List Veterinario
  deriving DecidableEq, Repr

/-- The store keeps `_id` unique within the patient collection. -/
def Almacen.bienFormado (s : Almacen) : Prop :=
  (s.pacientes.map (fun p => p._id)).Nodup

instance (s : Almacen) : Decidable s.bienFormado := by
  unfold Almacen.bienFormado; infer_instance

/-! ## Store operations -/

/-- Store operations a handler can issue. -/
inductive Op where
  | find (vet : String)
  | findById (id : String)
  | vetFindById (id : String)
  | save (p : Paciente)
  | findByIdAndUpdate (id : String) (body : Cuerpo)
  | findByIdAndDelete (id : String)
  deriving DecidableEq, Repr

/-- What the handlers take from outside the repository: the object-id validity
check of the store driver, which store operations raise (a failed cast of an id
included), the identifier the store gives to the next new document, and the
cast of an id string to an ObjectId, written the way the store keeps `_id`:
two id strings that denote the same ObjectId have the same cast. -/
structure Entorno where
  isValid : String → Bool
  falla : Op → Bool
  nuevoId : String
  aObjectId : String → String

/-- Sets field `k` of an object to `v`, keeping the position of an existing key. -/
def asignar (k : String) (v : Valor) : Cuerpo → Cuerpo
  | [] => [(k, v)]
  | (k', v') :: r => if k' = k then (k, v) :: r else (k', v') :: asignar k v r

/-- Removes field `k` from an object. -/
def quitar (k : String) (c : Cuerpo) : Cuerpo :=
  c.filter (fun kv => kv.1 != k)

/-- Applies every field of `body` onto `campos`, the `$set` of an update. -/
def fusionar (campos body : Cuerpo) : Cuerpo :=
  body.foldl (fun c kv => asignar kv.1 kv.2 c) campos

/-- The veterinarian summary a populated reference expands to:
`populate('veterinario','_id nombre apellido')`. -/
structure VetResumen where
  _id : String
  nombre : String
  apellido : String
  deriving DecidableEq, Repr

/-- A patient as sent to the client: the selected fields, with the
veterinarian reference populated (`none` when it resolves to no document). -/
structure PacienteVista where
  _id : String
  campos : Cuerpo
  veterinario : Option VetResumen
  deriving DecidableEq, Repr

/-- Resolves a veterinarian reference against the veterinarian collection. -/
def poblar (s : Almacen) (ref : Option Valor) : Option VetResumen :=
  match ref with
  | some (Valor.str v) =>
    (s.veterinarios.find? (fun w => w._id == v)).map
      (fun w => { _id := w._id, nombre := w.nombre, apellido := w.apellido })
  | _ => none

/-- Projection `select("-k1 -k2 ...")` followed by
`populate('veterinario','_id nombre apellido')`. -/
def vista (s : Almacen) (excluidos : List String) (p : Paciente) : PacienteVista :=
  { _id := p._id
    campos := (quitar "veterinario" p.campos).filter (fun kv => !excluidos.contains kv.1)
    veterinario := poblar s p.veterinario }

/-- Fields left out by `listarPacientes`. -/
def excluidosLista : List String := ["salida", "createdAt", "updatedAt", "__v"]

/-- Fields left out by `detallePaciente`. -/
def excluidosDetalle : List String := ["createdAt", "updatedAt", "__v"]

/-! ## Requests and responses -/

/-- The parts of an Express request the patient handlers read. -/
structure Req where
  id : String
  body : Cuerpo
  veterinarioBDD : Veterinario

/-- The payload of a response. -/
inductive Carga where
  | msg (m : String)
  | lista (l : List PacienteVista)
  | doc (p : Option PacienteVista)
  | vacio
  deriving DecidableEq, Repr

/-- A response: `res.status(estado).json(carga)`. -/
structure Respuesta where
  estado : Nat
  carga : Carga
  deriving DecidableEq, Repr

/-- The outcome of running a handler. -/
structure Resultado where
  respuestas : List Respuesta
  almacen : Almacen
  traza : List Op
  propagada : Bool
  deriving DecidableEq, Repr

/-- `Object.values(body).includes("")`. -/
def tieneVacio (body : Cuerpo) : Bool :=
  (body.map Prod.snd).contains (Valor.str "")

/-! ## Handlers of `paciente_controller.js` -/

/-- `listarPacientes`: the active patients of the authenticated veterinarian. -/
def listarPacientes (e : Entorno) (req : Req) (s : Almacen) : Resultado :=
  let op := Op.find req.veterinarioBDD._id
  if e.falla op then
    { respuestas := [], almacen := s, traza := [op], propagada := true }
  else
    let pacientes := (s.pacientes.filter
      (fun p => p.estado && p.veterinario == some (Valor.str req.veterinarioBDD._id))).map
      (vista s excluidosLista)
    { respuestas := [⟨200, Carga.lista pacientes⟩], almacen := s, traza := [op],
      propagada := false }

/-- `detallePaciente`: the patient with the given id, whatever its status. -/
def detallePaciente (e : Entorno) (req : Req) (s : Almacen) : Resultado :=
  let id := req.id
  if !e.isValid id then
    { respuestas := [⟨404, Carga.msg ("Lo sentimos, no existe el veterinario " ++ id)⟩],
      almacen := s, traza := [], propagada := false }
  else
    let op := Op.findById id
    if e.falla op then
      { respuestas := [], almacen := s, traza := [op], propagada := true }
    else
      let paciente := (s.pacientes.find? (fun p => p._id == e.aObjectId id)).map
        (vista s excluidosDetalle)
      { respuestas := [⟨200, Carga.doc paciente⟩], almacen := s, traza := [op],
        propagada := false }

/-- Modelled from the spec: the constructor of `models/Paciente.js`, not part of
the sources. The new document takes the submitted fields, `estado` defaults to
`true` when the body does not give it, and the identifier is the one the store
generates. -/
def nuevoPaciente (e : Entorno) (body : Cuerpo) : Paciente :=
  let campos := quitar "_id" body
  { _id := e.nuevoId
    campos := if (campos.lookup "estado").isSome then campos
              else campos ++ [("estado", Valor.bool true)] }

/-- The assignment `doc.veterinario = v`; assigning `undefined` unsets the field. -/
def Paciente.conVeterinario (p : Paciente) (v : Option Valor) : Paciente :=
  match v with
  | some x => { p with campos := asignar "veterinario" x p.campos }
  | none => { p with campos := quitar "veterinario" p.campos }

/-- `registrarPaciente`: creates a patient from the request body. -/
def registrarPaciente (e : Entorno) (req : Req) (s : Almacen) : Resultado :=
  if tieneVacio req.body then
    { respuestas := [⟨400, Carga.msg "Lo sentimos, debes llenar todos los campos"⟩],
      almacen := s, traza := [], propagada := false }
  else
    let op1 := Op.vetFindById req.veterinarioBDD._id
    if e.falla op1 then
      { respuestas := [], almacen := s, traza := [op1], propagada := true }
    else
      match s.veterinarios.find? (fun w => w._id == req.veterinarioBDD._id) with
      | none =>
        { respuestas := [⟨400, Carga.msg "El veterinario no existe"⟩],
          almacen := s, traza := [op1], propagada := false }
      | some _ =>
        let nuevo := (nuevoPaciente e req.body).conVeterinario (req.body.lookup "id")
        let op2 := Op.save nuevo
        if e.falla op2 || s.pacientes.any (fun p => p._id == nuevo._id) then
          { respuestas := [], almacen := s, traza := [op1, op2], propagada := true }
        else
          { respuestas := [⟨200, Carga.msg "Registro exitoso del paciente"⟩],
            almacen := { s with pacientes := s.pacientes ++ [nuevo] },
            traza := [op1, op2], propagada := false }

/-- The store side of `findByIdAndUpdate(id, body)`, `oid` being the ObjectId
the id was cast to: the first document with that `_id` gets the fields of
`body`; `none` when the store rejects the update because it would change the
immutable `_id`. -/
def actualizarDocs (cast : String → String) (oid : String) (body : Cuerpo) :
    List Paciente → Option (List Paciente)
  | [] => some []
  | p :: r =>
    if p._id == oid then
      match body.lookup "_id" with
      | none => some ({ p with campos := fusionar p.campos body } :: r)
      | some (Valor.str t) =>
        if cast t = oid then
          some ({ p with campos := fusionar p.campos (quitar "_id" body) } :: r)
        else none
      | some _ => none
    else (actualizarDocs cast oid body r).map (fun r' => p :: r')

/-- `actualizarPaciente`: applies the request body onto the patient with the
given id. -/
def actualizarPaciente (e : Entorno) (req : Req) (s : Almacen) : Resultado :=
  let id := req.id
  if tieneVacio req.body then
    { respuestas := [⟨400, Carga.msg "Lo sentimos, debes llenar todos los campos"⟩],
      almacen := s, traza := [], propagada := false }
  else if !e.isValid id then
    { respuestas := [⟨404, Carga.msg ("Lo sentimos, no existe el veterinario " ++ id)⟩],
      almacen := s, traza := [], propagada := false }
  else
    let op := Op.findByIdAndUpdate id req.body
    if e.falla op then
      { respuestas := [], almacen := s, traza := [op], propagada := true }
    else
      match actualizarDocs e.aObjectId (e.aObjectId id) req.body s.pacientes with
      | none => { respuestas := [], almacen := s, traza := [op], propagada := true }
      | some ps =>
        { respuestas := [⟨200, Carga.msg "Actualización exitosa del paciente"⟩],
          almacen := { s with pacientes := ps }, traza := [op], propagada := false }

/-- `eliminarPaciente`: hard delete by id, with every exception of the body
caught and answered 500. -/
def eliminarPaciente (e : Entorno) (req : Req) (s : Almacen) : Resultado :=
  let id := req.id
  if !e.isValid id then
    { respuestas := [⟨404, Carga.msg ("Lo sentimos, no existe el paciente con ID " ++ id)⟩],
      almacen := s, traza := [], propagada := false }
  else
    let op := Op.findByIdAndDelete id
    if e.falla op then
      { respuestas := [⟨500, Carga.msg "Error interno del servidor"⟩],
        almacen := s, traza := [op], propagada := false }
    else
      match s.pacientes.find? (fun p => p._id == e.aObjectId id) with
      | none =>
        { respuestas := [⟨404, Carga.msg ("Lo sentimos, no existe el paciente con ID " ++ id)⟩],
          almacen := s, traza := [op], propagada := false }
      | some _ =>
        { respuestas := [⟨204, Carga.vacio⟩],
          almacen :=
            { s with pacientes := s.pacientes.eraseP (fun p => p._id == e.aObjectId id) },
          traza := [op], propagada := false }

/-- A message contains a given text. -/
def contieneTexto (m t : String) : Prop := t.data <:+: m.data

/-! ## HTTP dispatch of `server.js` -/

/-- HTTP request methods. -/
inductive Metodo where
  | GET | HEAD | POST | PUT | DELETE | OPTIONS | PATCH
  deriving DecidableEq, Repr

/-- What the router reads of a request: the method and the path. -/
structure Peticion where
  metodo : Metodo
  ruta : String
  deriving DecidableEq, Repr

/-- A compiled route path: literal characters and named parameters. -/
inductive Ficha where
  | lit (c : Char)
  | param
  deriving DecidableEq, Repr

/-- Characters of a parameter name. -/
def esPalabra (c : Char) : Bool := c.isAlphanum || c == '_'

/-- Compiles a route path: `:name` becomes a parameter, every other character
stands for itself. `enNombre` tells that the characters of a parameter name are
being skipped. -/
def compilar (enNombre : Bool) : List Char → List Ficha
  | [] => []
  | c :: r =>
    if enNombre && esPalabra c then compilar true r
    else if c == ':' && (r.head?.map esPalabra).getD false then Ficha.param :: compilar true r
    else Ficha.lit c :: compilar false r

/-- Matches a path against compiled tokens from its first character on,
without regard to case; a parameter takes one or more characters other than
`/`; at the end of the tokens one trailing `/` is allowed. -/
def coincideFichas : List Ficha → List Char → Bool
  | [], r => r == [] || r == ['/']
  | Ficha.lit _ :: _, [] => false
  | Ficha.lit c :: fs, x :: r => c.toLower == x.toLower && coincideFichas fs r
  | Ficha.param :: fs, r =>
    (List.range r.length).any (fun k =>
      (r.take (k + 1)).all (fun x => x != '/') && coincideFichas fs (r.drop (k + 1)))

/-- The tokens of a route path; a `/` ending the path is the optional trailing
slash. -/
def fichasDe (patron : String) : List Ficha :=
  let cs := patron.data
  compilar false (if cs.getLast? == some '/' then cs.dropLast else cs)

/-- A route declared with `router.METHOD(patron, ...)` matches the whole path. -/
def coincideRuta (patron ruta : String) : Bool :=
  coincideFichas (fichasDe patron) ruta.data

/-- Strips a literal prefix from a path, without regard to case. -/
def quitarPrefijo : List Char → List Char → Option (List Char)
  | [], r => some r
  | _ :: _, [] => none
  | c :: cs, x :: r => if c.toLower == x.toLower then quitarPrefijo cs r else none

/-- A mount `app.use(prefijo, ...)` matches a path that is the prefix or
continues it with `/`; the mounted handler sees the rest of the path. -/
def montaje (prefijo ruta : String) : Option String :=
  match quitarPrefijo prefijo.data ruta.data with
  | some [] => some "/"
  | some ('/' :: r) => some (String.mk ('/' :: r))
  | _ => none

/-- A `get` route also answers `HEAD`. -/
def esGet (m : Metodo) : Bool := m == Metodo.GET || m == Metodo.HEAD

/-- Where a request ends up. -/
inductive Destino where
  | raiz
  | veterinarios
  | listarPacientes
  | detallePaciente
  | registrarPaciente
  | actualizarPaciente
  | eliminarPaciente
  | swaggerDocs
  | swaggerUi
  | noEncontrado
  deriving DecidableEq, Repr

/-- The router of `paciente_routes.js`: the first route that matches the method
and the path (each runs behind `verificarAutenticacion`). -/
def routerPacientes (p : Peticion) : Option Destino :=
  if esGet p.metodo && coincideRuta "/pacientes" p.ruta then some Destino.listarPacientes
  else if esGet p.metodo && coincideRuta "/paciente/:id" p.ruta then some Destino.detallePaciente
  else if p.metodo == Metodo.POST && coincideRuta "/paciente/registro" p.ruta then
    some Destino.registrarPaciente
  else if p.metodo == Metodo.PUT && coincideRuta "/paciente/actualizar/:id" p.ruta then
    some Destino.actualizarPaciente
  else if p.metodo == Metodo.DELETE && coincideRuta "/paciente/eliminar/:id" p.ruta then
    some Destino.eliminarPaciente
  else none

/-- The router of `swagger_routes.js`: `router.get("docs.json", swaggerDocs)`. -/
def routerSwagger (p : Peticion) : Option Destino :=
  if esGet p.metodo && coincideRuta "docs.json" p.ruta then some Destino.swaggerDocs
  else none

/-- The application of `server.js`. The middlewares `cors()` and
`express.json()` pass every request on. `vets` tells which requests the router
of `veterinario_routes.js`, not part of the sources, answers. -/
def despachar (vets : Peticion → Bool) (p : Peticion) : Destino :=
  if esGet p.metodo && coincideRuta "/" p.ruta then Destino.raiz
  else
    let api : Option Destino :=
      match montaje "/api" p.ruta with
      | none => none
      | some interna =>
        let q : Peticion := ⟨p.metodo, interna⟩
        if vets q then some Destino.veterinarios
        else (routerPacientes q).orElse (fun _ => routerSwagger q)
    match api with
    | some d => d
    | none =>
      if (montaje "/api/docs" p.ruta).isSome then Destino.swaggerUi
      else Destino.noEncontrado

/-- The body of an HTTP response of the application. -/
inductive CuerpoHttp where
  | texto (t : String)
  | swaggerSpec
  deriving DecidableEq, Repr

/-- The response of the handlers defined in `server.js` and
`swagger_controller.js`; the other destinations answer through their own
handlers. -/
def respuestaDe : Destino → Option (Nat × CuerpoHttp)
  | Destino.raiz => some (200, CuerpoHttp.texto "Server on")
  | Destino.swaggerDocs => some (200, CuerpoHttp.swaggerSpec)
  | Destino.noEncontrado => some (404, CuerpoHttp.texto "Endpoint no encontrado - 404")
  | _ => none

/-! ## Example data -/

/-- An instance of the object-id check for the examples: 24 hexadecimal
characters. -/
def esHex24 (s : String) : Bool :=
  s.length == 24 &&
    s.data.all (fun c => c.isDigit || (97 ≤ c.toNat && c.toNat ≤ 102) ||
      (65 ≤ c.toNat && c.toNat ≤ 70))

/-- An instance of the cast for the examples: the hexadecimal digits in lower
case, the way an ObjectId is written. -/
def hexMinusculas (s : String) : String := String.mk (s.data.map Char.toLower)

def vet1 : Veterinario := ⟨"65a0000000000000000000a1", "Ana", "Paz"⟩

def vet2 : Veterinario := ⟨"65a0000000000000000000a2", "Luis", "Mora"⟩

/-- An active patient owned by `vet2`. -/
def pacMax : Paciente :=
  ⟨"65a0000000000000000000b1", [("nombre", Valor.str "Max"), ("estado", Valor.bool true),
    ("veterinario", Valor.str "65a0000000000000000000a2")]⟩

def almacenEj : Almacen := ⟨[pacMax], [vet1, vet2]⟩

/-- A store that does not fail. -/
def entornoEj : Entorno :=
  ⟨esHex24, fun _ => false, "65a0000000000000000000f9", hexMinusculas⟩

/-- A store whose every operation raises. -/
def entornoCaido : Entorno :=
  ⟨esHex24, fun _ => true, "65a0000000000000000000f9", hexMinusculas⟩

/-! ## Auxiliary facts -/

theorem contieneTexto_append (a t : String) : contieneTexto (a ++ t) t := by
  unfold contieneTexto
  rw [String.data_append]
  exact (List.suffix_append a.data t.data).isInfix

theorem tieneVacio_of_mem (body : Cuerpo) (h : ∃ kv ∈ body, kv.2 = Valor.str "") :
    tieneVacio body = true := by
  obtain ⟨kv, hkv, hv⟩ := h
  unfold tieneVacio
  rw [List.contains_iff_exists_mem_beq]
  exact ⟨kv.2, List.mem_map_of_mem _ hkv, by simp [hv]⟩

theorem find_id_eq_none (id : String) (l : List Paciente) (h : ∀ p ∈ l, p._id ≠ id) :
    l.find? (fun p => p._id == id) = none := by
  rw [List.find?_eq_none]
  intro p hp
  simpa using h p hp

theorem find_id_eq_some (l : List Paciente) (P : Paciente)
    (hn : (l.map (fun p => p._id)).Nodup) (hP : P ∈ l) :
    l.find? (fun p => p._id == P._id) = some P := by
  induction l with
  | nil => cases hP
  | cons q r ih =>
    rw [List.map_cons, List.nodup_cons] at hn
    by_cases hq : q._id = P._id
    · have : q = P := by
        rcases List.mem_cons.mp hP with h | h
        · exact h.symm
        · exact absurd (hq ▸ List.mem_map_of_mem (fun p => p._id) h) hn.1
      simp [List.find?_cons, this]
    · have hP' : P ∈ r := by
        rcases List.mem_cons.mp hP with h | h
        · exact absurd (congrArg Paciente._id h).symm hq
        · exact h
      simp [List.find?_cons, hq, ih hn.2 hP']

theorem eq_of_id_eq (l : List Paciente) (P Q : Paciente)
    (hn : (l.map (fun p => p._id)).Nodup) (hP : P ∈ l) (hQ : Q ∈ l) (h : Q._id = P._id) :
    Q = P := by
  have h1 := find_id_eq_some l P hn hP
  have h2 := find_id_eq_some l Q hn hQ
  rw [h] at h2
  exact Option.some.inj (h2.symm.trans h1)

theorem eraseP_id_no_mem (id : String) (l : List Paciente)
    (hn : (l.map (fun p => p._id)).Nodup) :
    ∀ q ∈ l.eraseP (fun p => p._id == id), q._id ≠ id := by
  induction l with
  | nil => intro q hq; cases hq
  | cons a r ih =>
    rw [List.map_cons, List.nodup_cons] at hn
    intro q hq
    by_cases ha : a._id = id
    · have : (a :: r).eraseP (fun p => p._id == id) = r := by
        simp [List.eraseP_cons, ha]
      rw [this] at hq
      intro hqid
      exact hn.1 (by rw [ha, ← hqid]; exact List.mem_map_of_mem (fun p => p._id) hq)
    · have : (a :: r).eraseP (fun p => p._id == id) = a :: r.eraseP (fun p => p._id == id) := by
        simp [List.eraseP_cons, ha]
      rw [this] at hq
      rcases List.mem_cons.mp hq with h | h
      · rw [h]; exact ha
      · exact ih hn.2 q h

theorem actualizarDocs_ausente (cast : String → String) (id : String) (body : Cuerpo)
    (l : List Paciente) (h : ∀ p ∈ l, p._id ≠ id) :
    actualizarDocs cast id body l = some l := by
  induction l with
  | nil => rfl
  | cons a r ih =>
    have ha : a._id ≠ id := h a (List.mem_cons_self a r)
    have hr : ∀ p ∈ r, p._id ≠ id := fun p hp => h p (List.mem_cons_of_mem a hp)
    simp [actualizarDocs, ha, ih hr]

theorem actualizarDocs_presente (cast : String → String) (id : String) (body : Cuerpo)
    (l : List Paciente)
    (hn : (l.map (fun p => p._id)).Nodup) (hb : body.lookup "_id" = none) :
    actualizarDocs cast id body l = some (l.map (fun q =>
      if q._id = id then { q with campos := fusionar q.campos body } else q)) := by
  induction l with
  | nil => rfl
  | cons a r ih =>
    rw [List.map_cons, List.nodup_cons] at hn
    by_cases ha : a._id = id
    · have hr : ∀ p ∈ r, p._id ≠ id := by
        intro p hp hpid
        exact hn.1 (by rw [ha, ← hpid]; exact List.mem_map_of_mem (fun p => p._id) hp)
      have hmap : r.map (fun q =>
          if q._id = id then { q with campos := fusionar q.campos body } else q) = r := by
        conv_rhs => rw [← List.map_id r]
        apply List.map_congr_left
        intro q hq
        simp [hr q hq]
      simp [actualizarDocs, ha, hb, hmap]
    · simp [actualizarDocs, ha, ih hn.2]

theorem lookup_asignar (k : String) (v : Valor) (c : Cuerpo) :
    (asignar k v c).lookup k = some v := by
  induction c with
  | nil => simp [asignar, List.lookup]
  | cons kv r ih =>
    obtain ⟨k', v'⟩ := kv
    by_cases h : k' = k
    · simp [asignar, h, List.lookup]
    · have h' : (k == k') = false := by simpa using fun hh : k = k' => h hh.symm
      simp [asignar, h, List.lookup, h', ih]

theorem lookup_quitar (k : String) (c : Cuerpo) : (quitar k c).lookup k = none := by
  induction c with
  | nil => rfl
  | cons kv r ih =>
    obtain ⟨k', v'⟩ := kv
    by_cases h : k' = k
    · simpa [quitar, List.filter_cons, h] using ih
    · have h' : (k == k') = false := by simpa using fun hh : k = k' => h hh.symm
      have ih' : List.lookup k (List.filter (fun kv => kv.1 != k) r) = none := ih
      simp [quitar, List.filter_cons, h, List.lookup, h', ih']

theorem veterinario_conVeterinario (p : Paciente) (v : Option Valor) :
    (p.conVeterinario v).veterinario = v := by
  cases v with
  | none => exact lookup_quitar "veterinario" p.campos
  | some x => exact lookup_asignar "veterinario" x p.campos

/-! ## The store invariant -/

theorem actualizarDocs_ids (cast : String → String) (id : String) (body : Cuerpo)
    (l l2 : List Paciente) (h : actualizarDocs cast id body l = some l2) :
    l2.map (fun p => p._id) = l.map (fun p => p._id) := by
  induction l generalizing l2 with
  | nil =>
    simp only [actualizarDocs, Option.some.injEq] at h
    rw [← h]
  | cons a r ih =>
    by_cases ha : a._id = id
    · cases hb : body.lookup "_id" with
      | none =>
        simp only [actualizarDocs, ha, beq_self_eq_true, if_true, hb, Option.some.injEq] at h
        rw [← h]; simp [ha]
      | some v =>
        cases v with
        | str t =>
          by_cases hv : cast t = id
          · simp only [actualizarDocs, ha, beq_self_eq_true, if_true, hb, hv,
              Option.some.injEq] at h
            rw [← h]; simp [ha]
          · simp [actualizarDocs, ha, hb, hv] at h
        | num n => simp [actualizarDocs, ha, hb] at h
        | bool b => simp [actualizarDocs, ha, hb] at h
        | nulo => simp [actualizarDocs, ha, hb] at h
    · cases hr : actualizarDocs cast id body r with
      | none => simp [actualizarDocs, ha, hr] at h
      | some r2 =>
        simp only [actualizarDocs, beq_iff_eq, ha, if_false, hr, Option.map_some',
          Option.some.injEq] at h
        rw [← h, List.map_cons, List.map_cons, ih r2 hr]

/-- Uniqueness of `_id` in the patient collection is kept by every handler. -/
theorem bienFormado_preservado (e : Entorno) (req : Req) (s : Almacen) (hs : s.bienFormado) :
    (listarPacientes e req s).almacen.bienFormado ∧
      (detallePaciente e req s).almacen.bienFormado ∧
      (registrarPaciente e req s).almacen.bienFormado ∧
      (actualizarPaciente e req s).almacen.bienFormado ∧
      (eliminarPaciente e req s).almacen.bienFormado := by
  refine ⟨?_, ?_, ?_, ?_, ?_⟩
  · unfold listarPacientes
    by_cases h : e.falla (Op.find req.veterinarioBDD._id) = true <;> simpa [h] using hs
  · unfold detallePaciente
    by_cases h1 : e.isValid req.id = true <;>
      by_cases h2 : e.falla (Op.findById req.id) = true <;> simpa [h1, h2] using hs
  · by_cases h1 : tieneVacio req.body = true
    · simpa [registrarPaciente, h1] using hs
    by_cases h2 : e.falla (Op.vetFindById req.veterinarioBDD._id) = true
    · simpa [registrarPaciente, h1, h2] using hs
    cases h3 : s.veterinarios.find? (fun w => w._id == req.veterinarioBDD._id) with
    | none => simpa [registrarPaciente, h1, h2, h3] using hs
    | some w =>
      by_cases h4 : (e.falla (Op.save ((nuevoPaciente e req.body).conVeterinario
          (req.body.lookup "id"))) || s.pacientes.any (fun p => p._id ==
            ((nuevoPaciente e req.body).conVeterinario (req.body.lookup "id"))._id)) = true
      · simp only [registrarPaciente, h1, h2, h3, h4]
        simpa using hs
      · simp only [registrarPaciente, h1, h2, h3, h4]
        simp only [Bool.or_eq_true, not_or, List.any_eq_true, not_exists, not_and,
          beq_iff_eq] at h4
        unfold Almacen.bienFormado at hs ⊢
        simp only [Bool.false_eq_true, if_false, List.map_append, List.map_cons, List.map_nil]
        rw [List.nodup_append]
        refine ⟨hs, List.nodup_singleton _, ?_⟩
        intro x hx hx2
        rw [List.mem_singleton] at hx2
        obtain ⟨p, hp, hpx⟩ := List.mem_map.mp hx
        exact h4.2 p hp (hpx.trans hx2)
  · by_cases h1 : tieneVacio req.body = true
    · simpa [actualizarPaciente, h1] using hs
    by_cases h2 : e.isValid req.id = true
    swap
    · simpa [actualizarPaciente, h1, h2] using hs
    by_cases h3 : e.falla (Op.findByIdAndUpdate req.id req.body) = true
    · simpa [actualizarPaciente, h1, h2, h3] using hs
    cases h4 : actualizarDocs e.aObjectId (e.aObjectId req.id) req.body s.pacientes with
    | none => simpa [actualizarPaciente, h1, h2, h3, h4] using hs
    | some ps =>
      have hids := actualizarDocs_ids _ _ _ _ _ h4
      unfold Almacen.bienFormado at hs ⊢
      simp only [actualizarPaciente, h1, h2, h3, h4]
      simpa [hids] using hs
  · by_cases h1 : e.isValid req.id = true
    swap
    · simpa [eliminarPaciente, h1] using hs
    by_cases h2 : e.falla (Op.findByIdAndDelete req.id) = true
    · simpa [eliminarPaciente, h1, h2] using hs
    cases h3 : s.pacientes.find? (fun p => p._id == e.aObjectId req.id) with
    | none => simpa [eliminarPaciente, h1, h2, h3] using hs
    | some p =>
      unfold Almacen.bienFormado at hs ⊢
      simp only [eliminarPaciente, h1, h2, h3]
      simp only [Bool.not_true, Bool.false_eq_true, if_false]
      exact hs.sublist ((List.eraseP_sublist s.pacientes).map _)

/-! ## Listing -/

/-- C1: on a store that answers the query, `listarPacientes` called as
veterinarian `V` responds 200 once, and a patient `P` of the store is in the
result exactly when `P.estado` is true and `P.veterinario` is the id of `V`;
every entry of the result is such a patient, so none belongs to another
veterinarian. -/
theorem listarPacientes_alcance (e : Entorno) (req : Req) (s : Almacen)
    (hs : s.bienFormado) (hf : e.falla (Op.find req.veterinarioBDD._id) = false) :
    ∃ l, (listarPacientes e req s).respuestas = [⟨200, Carga.lista l⟩] ∧
      (∀ P ∈ s.pacientes, (vista s excluidosLista P ∈ l ↔
        (P.estado = true ∧ P.veterinario = some (Valor.str req.veterinarioBDD._id)))) ∧
      (∀ v ∈ l, ∃ Q ∈ s.pacientes, v = vista s excluidosLista Q ∧ Q.estado = true ∧
        Q.veterinario = some (Valor.str req.veterinarioBDD._id)) := by
  refine ⟨_, by simp only [listarPacientes, hf]; rfl, ?_, ?_⟩
  · intro P hP
    constructor
    · intro h
      obtain ⟨Q, hQ, hv⟩ := List.mem_map.mp h
      rw [List.mem_filter] at hQ
      have hid : Q._id = P._id := congrArg PacienteVista._id hv
      have hQP : Q = P := eq_of_id_eq s.pacientes P Q hs hP hQ.1 hid
      rw [← hQP]
      simpa using hQ.2
    · intro h
      apply List.mem_map_of_mem
      rw [List.mem_filter]
      exact ⟨hP, by simp [h.1, h.2]⟩
  · intro v hv
    obtain ⟨Q, hQ, hv⟩ := List.mem_map.mp hv
    rw [List.mem_filter] at hQ
    exact ⟨Q, hQ.1, hv.symm, by simpa using hQ.2⟩

theorem listarPacientes_alcance_witness :
    ∃ l, (listarPacientes entornoEj ⟨"", [], vet1⟩ almacenEj).respuestas
        = [⟨200, Carga.lista l⟩] ∧
      (∀ P ∈ almacenEj.pacientes, (vista almacenEj excluidosLista P ∈ l ↔
        (P.estado = true ∧ P.veterinario = some (Valor.str vet1._id)))) ∧
      (∀ v ∈ l, ∃ Q ∈ almacenEj.pacientes, v = vista almacenEj excluidosLista Q ∧
        Q.estado = true ∧ Q.veterinario = some (Valor.str vet1._id)) :=
  listarPacientes_alcance entornoEj ⟨"", [], vet1⟩ almacenEj (by decide) (by decide)

/-! ## Rejections before the store is reached -/

/-- C5: when some field of the body is the empty string, `registrarPaciente`
responds 400 once, leaves the store as it was and issues no store operation. -/
theorem registrarPaciente_campo_vacio (e : Entorno) (req : Req) (s : Almacen)
    (h : ∃ kv ∈ req.body, kv.2 = Valor.str "") :
    (∃ m, (registrarPaciente e req s).respuestas = [⟨400, Carga.msg m⟩]) ∧
      (registrarPaciente e req s).almacen = s ∧
      (registrarPaciente e req s).traza = [] ∧
      (registrarPaciente e req s).propagada = false := by
  have hv := tieneVacio_of_mem req.body h
  simp [registrarPaciente, hv]

theorem registrarPaciente_campo_vacio_witness :
    (∃ m, (registrarPaciente entornoCaido ⟨"", [("nombre", Valor.str "")], vet1⟩
        almacenEj).respuestas = [⟨400, Carga.msg m⟩]) ∧
      (registrarPaciente entornoCaido ⟨"", [("nombre", Valor.str "")], vet1⟩
        almacenEj).almacen = almacenEj ∧
      (registrarPaciente entornoCaido ⟨"", [("nombre", Valor.str "")], vet1⟩
        almacenEj).traza = [] ∧
      (registrarPaciente entornoCaido ⟨"", [("nombre", Valor.str "")], vet1⟩
        almacenEj).propagada = false :=
  registrarPaciente_campo_vacio entornoCaido ⟨"", [("nombre", Valor.str "")], vet1⟩ almacenEj
    ⟨("nombre", Valor.str ""), by simp, rfl⟩

/-- C6: when the authenticated veterinarian is not in the veterinarian
collection, `registrarPaciente` leaves the store as it was, and it responds 400
once whenever the lookup of the veterinarian does not raise. -/
theorem registrarPaciente_veterinario_ausente (e : Entorno) (req : Req) (s : Almacen)
    (h : ∀ w ∈ s.veterinarios, w._id ≠ req.veterinarioBDD._id) :
    (registrarPaciente e req s).almacen = s ∧
      (e.falla (Op.vetFindById req.veterinarioBDD._id) = false →
        ∃ m, (registrarPaciente e req s).respuestas = [⟨400, Carga.msg m⟩]) := by
  have hfind : s.veterinarios.find? (fun w => w._id == req.veterinarioBDD._id) = none := by
    rw [List.find?_eq_none]
    intro w hw
    simpa using h w hw
  unfold registrarPaciente
  by_cases hv : tieneVacio req.body = true
  · simp [hv]
  · by_cases hf : e.falla (Op.vetFindById req.veterinarioBDD._id) = true
    · simp [hv, hf]
    · simp [hv, hf, hfind]

theorem registrarPaciente_veterinario_ausente_witness :
    (registrarPaciente entornoEj ⟨"", [("nombre", Valor.str "Rex")], ⟨"65a0000000000000000000a3",
        "Eva", "Ruiz"⟩⟩ almacenEj).almacen = almacenEj ∧
      ∃ m, (registrarPaciente entornoEj ⟨"", [("nombre", Valor.str "Rex")],
        ⟨"65a0000000000000000000a3", "Eva", "Ruiz"⟩⟩ almacenEj).respuestas
        = [⟨400, Carga.msg m⟩] :=
  ⟨(registrarPaciente_veterinario_ausente entornoEj
      ⟨"", [("nombre", Valor.str "Rex")], ⟨"65a0000000000000000000a3", "Eva", "Ruiz"⟩⟩
      almacenEj (by decide)).1,
    (registrarPaciente_veterinario_ausente entornoEj
      ⟨"", [("nombre", Valor.str "Rex")], ⟨"65a0000000000000000000a3", "Eva", "Ruiz"⟩⟩
      almacenEj (by decide)).2 (by decide)⟩

/-- C4, as the code has it: for an id the validity check rejects,
`detallePaciente` and `eliminarPaciente` respond 404 once with a message
containing the id, for every body, and `actualizarPaciente` does so for every
body without an empty-string field; none of them issues a store operation or
changes the store. -/
theorem id_malformado_404 (e : Entorno) (req : Req) (s : Almacen)
    (h : e.isValid req.id = false) :
    ((∃ m, (detallePaciente e req s).respuestas = [⟨404, Carga.msg m⟩] ∧
          contieneTexto m req.id) ∧
        (detallePaciente e req s).traza = [] ∧ (detallePaciente e req s).almacen = s) ∧
      ((∃ m, (eliminarPaciente e req s).respuestas = [⟨404, Carga.msg m⟩] ∧
          contieneTexto m req.id) ∧
        (eliminarPaciente e req s).traza = [] ∧ (eliminarPaciente e req s).almacen = s) ∧
      (tieneVacio req.body = false →
        (∃ m, (actualizarPaciente e req s).respuestas = [⟨404, Carga.msg m⟩] ∧
          contieneTexto m req.id) ∧
        (actualizarPaciente e req s).traza = [] ∧ (actualizarPaciente e req s).almacen = s) := by
  refine ⟨⟨⟨"Lo sentimos, no existe el veterinario " ++ req.id, ?_,
        contieneTexto_append _ req.id⟩, ?_, ?_⟩,
    ⟨⟨"Lo sentimos, no existe el paciente con ID " ++ req.id, ?_,
        contieneTexto_append _ req.id⟩, ?_, ?_⟩, fun hv =>
    ⟨⟨"Lo sentimos, no existe el veterinario " ++ req.id, ?_,
        contieneTexto_append _ req.id⟩, ?_, ?_⟩⟩ <;>
  simp [detallePaciente, eliminarPaciente, actualizarPaciente, h, *]

theorem id_malformado_404_witness :
    ((∃ m, (detallePaciente entornoEj ⟨"not-an-id", [("nombre", Valor.str "Rex")], vet1⟩
          almacenEj).respuestas = [⟨404, Carga.msg m⟩] ∧ contieneTexto m "not-an-id") ∧
        (detallePaciente entornoEj ⟨"not-an-id", [("nombre", Valor.str "Rex")], vet1⟩
          almacenEj).traza = [] ∧
        (detallePaciente entornoEj ⟨"not-an-id", [("nombre", Valor.str "Rex")], vet1⟩
          almacenEj).almacen = almacenEj) ∧
      ((∃ m, (eliminarPaciente entornoEj ⟨"not-an-id", [("nombre", Valor.str "Rex")], vet1⟩
          almacenEj).respuestas = [⟨404, Carga.msg m⟩] ∧ contieneTexto m "not-an-id") ∧
        (eliminarPaciente entornoEj ⟨"not-an-id", [("nombre", Valor.str "Rex")], vet1⟩
          almacenEj).traza = [] ∧
        (eliminarPaciente entornoEj ⟨"not-an-id", [("nombre", Valor.str "Rex")], vet1⟩
          almacenEj).almacen = almacenEj) ∧
      ((∃ m, (actualizarPaciente entornoEj ⟨"not-an-id", [("nombre", Valor.str "Rex")], vet1⟩
          almacenEj).respuestas = [⟨404, Carga.msg m⟩] ∧ contieneTexto m "not-an-id") ∧
        (actualizarPaciente entornoEj ⟨"not-an-id", [("nombre", Valor.str "Rex")], vet1⟩
          almacenEj).traza = [] ∧
        (actualizarPaciente entornoEj ⟨"not-an-id", [("nombre", Valor.str "Rex")], vet1⟩
          almacenEj).almacen = almacenEj) :=
  ⟨(id_malformado_404 entornoEj ⟨"not-an-id", [("nombre", Valor.str "Rex")], vet1⟩ almacenEj
      (by decide)).1,
    (id_malformado_404 entornoEj ⟨"not-an-id", [("nombre", Valor.str "Rex")], vet1⟩ almacenEj
      (by decide)).2.1,
    (id_malformado_404 entornoEj ⟨"not-an-id", [("nombre", Valor.str "Rex")], vet1⟩ almacenEj
      (by decide)).2.2 (by decide)⟩

/-- C4 as stated fails: with the malformed id `not-an-id` and a body whose
`nombre` is the empty string, `actualizarPaciente` responds 400, not 404, and
its message does not contain the id. -/
theorem actualizarPaciente_id_malformado_400 :
    entornoEj.isValid "not-an-id" = false ∧
      (actualizarPaciente entornoEj ⟨"not-an-id", [("nombre", Valor.str "")], vet1⟩
        almacenEj).respuestas
        = [⟨400, Carga.msg "Lo sentimos, debes llenar todos los campos"⟩] ∧
      ¬ contieneTexto "Lo sentimos, debes llenar todos los campos" "not-an-id" := by
  unfold contieneTexto
  decide

/-! ## Deleting -/

/-- C8: for an id the validity check accepts, when the delete operation of the
store raises, `eliminarPaciente` lets no exception escape and responds exactly
once, with status 500 and the message `Error interno del servidor`. -/
theorem eliminarPaciente_fallo_500 (e : Entorno) (req : Req) (s : Almacen)
    (hv : e.isValid req.id = true) (hf : e.falla (Op.findByIdAndDelete req.id) = true) :
    (eliminarPaciente e req s).respuestas = [⟨500, Carga.msg "Error interno del servidor"⟩] ∧
      (eliminarPaciente e req s).respuestas.length = 1 ∧
      (eliminarPaciente e req s).propagada = false := by
  simp [eliminarPaciente, hv, hf]

theorem eliminarPaciente_fallo_500_witness :
    (eliminarPaciente entornoCaido ⟨"65a0000000000000000000b1", [], vet1⟩ almacenEj).respuestas
        = [⟨500, Carga.msg "Error interno del servidor"⟩] ∧
      (eliminarPaciente entornoCaido ⟨"65a0000000000000000000b1", [], vet1⟩
        almacenEj).respuestas.length = 1 ∧
      (eliminarPaciente entornoCaido ⟨"65a0000000000000000000b1", [], vet1⟩
        almacenEj).propagada = false :=
  eliminarPaciente_fallo_500 entornoCaido ⟨"65a0000000000000000000b1", [], vet1⟩ almacenEj
    (by decide) (by decide)

/-- C7: for an id the validity check accepts and a store whose delete
operation does not raise, running `eliminarPaciente` a second time with the
same id leaves the store the first run left, and the second run responds 404
once. -/
theorem eliminarPaciente_idempotente (e : Entorno) (req : Req) (s : Almacen)
    (hs : s.bienFormado) (hv : e.isValid req.id = true)
    (hf : e.falla (Op.findByIdAndDelete req.id) = false) :
    (eliminarPaciente e req (eliminarPaciente e req s).almacen).almacen
        = (eliminarPaciente e req s).almacen ∧
      ∃ m, (eliminarPaciente e req (eliminarPaciente e req s).almacen).respuestas
        = [⟨404, Carga.msg m⟩] := by
  have key : ∀ t : Almacen, t.pacientes.find? (fun p => p._id == e.aObjectId req.id) = none →
      (eliminarPaciente e req t).almacen = t ∧
        ∃ m, (eliminarPaciente e req t).respuestas = [⟨404, Carga.msg m⟩] := by
    intro t ht
    simp [eliminarPaciente, hv, hf, ht]
  cases hfind : s.pacientes.find? (fun p => p._id == e.aObjectId req.id) with
  | none =>
    have h1 : (eliminarPaciente e req s).almacen = s := (key s hfind).1
    rw [h1]
    exact key s hfind
  | some p =>
    have h1 : (eliminarPaciente e req s).almacen
        = { s with pacientes :=
            s.pacientes.eraseP (fun p => p._id == e.aObjectId req.id) } := by
      simp [eliminarPaciente, hv, hf, hfind]
    rw [h1]
    exact key _ (find_id_eq_none (e.aObjectId req.id) _
      (eraseP_id_no_mem (e.aObjectId req.id) s.pacientes hs))

theorem eliminarPaciente_idempotente_witness :
    (eliminarPaciente entornoEj ⟨"65a0000000000000000000b1", [], vet1⟩
        (eliminarPaciente entornoEj ⟨"65a0000000000000000000b1", [], vet1⟩
          almacenEj).almacen).almacen
        = (eliminarPaciente entornoEj ⟨"65a0000000000000000000b1", [], vet1⟩
          almacenEj).almacen ∧
      ∃ m, (eliminarPaciente entornoEj ⟨"65a0000000000000000000b1", [], vet1⟩
        (eliminarPaciente entornoEj ⟨"65a0000000000000000000b1", [], vet1⟩
          almacenEj).almacen).respuestas = [⟨404, Carga.msg m⟩] :=
  eliminarPaciente_idempotente entornoEj ⟨"65a0000000000000000000b1", [], vet1⟩ almacenEj
    (by decide) (by decide) (by decide)

/-! ## Updating -/

/-- C10: for an id the validity check accepts and whose ObjectId no patient of
the store has, and a body without an empty-string field, `actualizarPaciente`
responds 200 once with the message `Actualización exitosa del paciente` and
leaves the store as it was, when the update operation of the store does not
raise. -/
theorem actualizarPaciente_ausente (e : Entorno) (req : Req) (s : Almacen)
    (hv : e.isValid req.id = true) (hb : ∀ kv ∈ req.body, kv.2 ≠ Valor.str "")
    (ha : ∀ p ∈ s.pacientes, p._id ≠ e.aObjectId req.id)
    (hf : e.falla (Op.findByIdAndUpdate req.id req.body) = false) :
    (actualizarPaciente e req s).respuestas
        = [⟨200, Carga.msg "Actualización exitosa del paciente"⟩] ∧
      (actualizarPaciente e req s).almacen = s := by
  have hvac : tieneVacio req.body = false := by
    cases hc : tieneVacio req.body with
    | false => rfl
    | true =>
      unfold tieneVacio at hc
      rw [List.contains_iff_exists_mem_beq] at hc
      obtain ⟨v, hv, hbeq⟩ := hc
      obtain ⟨kv, hkv, rfl⟩ := List.mem_map.mp hv
      exact absurd (by simpa using hbeq) (fun h : Valor.str "" = kv.2 => hb kv hkv h.symm)
  simp [actualizarPaciente, hv, hvac, hf,
    actualizarDocs_ausente e.aObjectId (e.aObjectId req.id) req.body s.pacientes ha]

theorem actualizarPaciente_ausente_witness :
    (actualizarPaciente entornoEj ⟨"65a0000000000000000000b7", [("nombre", Valor.str "Rex")],
        vet1⟩ almacenEj).respuestas
        = [⟨200, Carga.msg "Actualización exitosa del paciente"⟩] ∧
      (actualizarPaciente entornoEj ⟨"65a0000000000000000000b7", [("nombre", Valor.str "Rex")],
        vet1⟩ almacenEj).almacen = almacenEj :=
  actualizarPaciente_ausente entornoEj
    ⟨"65a0000000000000000000b7", [("nombre", Valor.str "Rex")], vet1⟩ almacenEj
    (by decide) (by decide) (by decide) (by decide)

/-- An id is looked up by the ObjectId it denotes, not by its spelling: with
the id of `pacMax` written in upper case, `detallePaciente` returns `pacMax`,
`actualizarPaciente` renames it and `eliminarPaciente` removes it. -/
theorem operaciones_por_id_mayusculas :
    esHex24 "65A0000000000000000000B1" = true ∧
      (detallePaciente entornoEj ⟨"65A0000000000000000000B1", [], vet2⟩ almacenEj).respuestas
        = [⟨200, Carga.doc (some (vista almacenEj excluidosDetalle pacMax))⟩] ∧
      (actualizarPaciente entornoEj ⟨"65A0000000000000000000B1", [("nombre", Valor.str "Rex")],
        vet2⟩ almacenEj).almacen.pacientes
        = [⟨pacMax._id, [("nombre", Valor.str "Rex"), ("estado", Valor.bool true),
            ("veterinario", Valor.str vet2._id)]⟩] ∧
      (eliminarPaciente entornoEj ⟨"65A0000000000000000000B1", [], vet2⟩
        almacenEj).almacen.pacientes = [] := by
  decide

/-! ## Ownership -/

/-- C2, as the code has it: the by-id operations act on the patient with the
given id whoever the authenticated veterinarian is. For a patient `P` of the
store, a request id that the validity check accepts and that denotes the
ObjectId of `P`, and a store that does not raise,
`detallePaciente` responds 200 with `P`, `eliminarPaciente` responds 204 and `P`
is no longer in the store, and `actualizarPaciente` with a body that has no
empty-string field and no `_id` field responds 200 and gives `P` the fields of
the body; the owner of `P` and the veterinarian of the request play no part. -/
theorem operaciones_por_id_sin_alcance (e : Entorno) (req : Req) (s : Almacen) (P : Paciente)
    (hs : s.bienFormado) (hP : P ∈ s.pacientes)
    (hid : e.aObjectId req.id = P._id)
    (hv : e.isValid req.id = true)
    (hf1 : e.falla (Op.findById req.id) = false)
    (hf2 : e.falla (Op.findByIdAndDelete req.id) = false)
    (hf3 : e.falla (Op.findByIdAndUpdate req.id req.body) = false) :
    (detallePaciente e req s).respuestas
        = [⟨200, Carga.doc (some (vista s excluidosDetalle P))⟩] ∧
      ((eliminarPaciente e req s).respuestas = [⟨204, Carga.vacio⟩] ∧
        P ∉ (eliminarPaciente e req s).almacen.pacientes) ∧
      (tieneVacio req.body = false → req.body.lookup "_id" = none →
        (actualizarPaciente e req s).respuestas
          = [⟨200, Carga.msg "Actualización exitosa del paciente"⟩] ∧
        (actualizarPaciente e req s).almacen.pacientes = s.pacientes.map (fun q =>
          if q._id = P._id then { q with campos := fusionar q.campos req.body } else q)) := by
  have hfind : s.pacientes.find? (fun p => p._id == e.aObjectId req.id) = some P := by
    rw [hid]; exact find_id_eq_some s.pacientes P hs hP
  refine ⟨?_, ⟨?_, ?_⟩, ?_⟩
  · simp [detallePaciente, hv, hf1, hfind]
  · simp [eliminarPaciente, hv, hf2, hfind]
  · have h1 : (eliminarPaciente e req s).almacen.pacientes
        = s.pacientes.eraseP (fun p => p._id == e.aObjectId req.id) := by
      simp [eliminarPaciente, hv, hf2, hfind]
    rw [h1]
    intro hmem
    exact eraseP_id_no_mem (e.aObjectId req.id) s.pacientes hs P hmem hid.symm
  · intro hvac hb
    have hup := actualizarDocs_presente e.aObjectId (e.aObjectId req.id) req.body
      s.pacientes hs hb
    rw [hid] at hup
    simp only [actualizarPaciente, hvac, hv, hf3]
    rw [hid, hup]
    simp

theorem operaciones_por_id_sin_alcance_witness :
    (detallePaciente entornoEj ⟨pacMax._id, [("nombre", Valor.str "Rex")], vet1⟩
        almacenEj).respuestas
        = [⟨200, Carga.doc (some (vista almacenEj excluidosDetalle pacMax))⟩] ∧
      ((eliminarPaciente entornoEj ⟨pacMax._id, [("nombre", Valor.str "Rex")], vet1⟩
          almacenEj).respuestas = [⟨204, Carga.vacio⟩] ∧
        pacMax ∉ (eliminarPaciente entornoEj ⟨pacMax._id, [("nombre", Valor.str "Rex")], vet1⟩
          almacenEj).almacen.pacientes) ∧
      ((actualizarPaciente entornoEj ⟨pacMax._id, [("nombre", Valor.str "Rex")], vet1⟩
          almacenEj).respuestas = [⟨200, Carga.msg "Actualización exitosa del paciente"⟩] ∧
        (actualizarPaciente entornoEj ⟨pacMax._id, [("nombre", Valor.str "Rex")], vet1⟩
          almacenEj).almacen.pacientes = almacenEj.pacientes.map (fun q =>
            if q._id = pacMax._id
            then { q with campos := fusionar q.campos [("nombre", Valor.str "Rex")] }
            else q)) :=
  ⟨(operaciones_por_id_sin_alcance entornoEj ⟨pacMax._id, [("nombre", Valor.str "Rex")], vet1⟩
      almacenEj pacMax (by decide) (by decide) (by decide) (by decide) (by decide) (by decide)
      (by decide)).1,
    (operaciones_por_id_sin_alcance entornoEj ⟨pacMax._id, [("nombre", Valor.str "Rex")], vet1⟩
      almacenEj pacMax (by decide) (by decide) (by decide) (by decide) (by decide) (by decide)
      (by decide)).2.1,
    (operaciones_por_id_sin_alcance entornoEj ⟨pacMax._id, [("nombre", Valor.str "Rex")], vet1⟩
      almacenEj pacMax (by decide) (by decide) (by decide) (by decide) (by decide) (by decide)
      (by decide)).2.2 (by decide) (by decide)⟩

/-- C2 as stated fails: `pacMax` belongs to `vet2`, yet called as `vet1` with
the id of `pacMax`, `detallePaciente` returns `pacMax`, `actualizarPaciente`
renames it and `eliminarPaciente` removes it from the store. -/
theorem operaciones_por_id_otro_veterinario :
    pacMax ∈ almacenEj.pacientes ∧
      pacMax.veterinario = some (Valor.str vet2._id) ∧ vet2._id ≠ vet1._id ∧
      (detallePaciente entornoEj ⟨pacMax._id, [], vet1⟩ almacenEj).respuestas
        = [⟨200, Carga.doc (some (vista almacenEj excluidosDetalle pacMax))⟩] ∧
      (actualizarPaciente entornoEj ⟨pacMax._id, [("nombre", Valor.str "Rex")], vet1⟩
        almacenEj).almacen.pacientes
        = [⟨pacMax._id, [("nombre", Valor.str "Rex"), ("estado", Valor.bool true),
            ("veterinario", Valor.str vet2._id)]⟩] ∧
      (eliminarPaciente entornoEj ⟨pacMax._id, [], vet1⟩ almacenEj).almacen.pacientes = [] := by
  decide

/-- The owner reference of a patient created by `registrarPaciente` is the
`id` field of the request body: the veterinarian of the request is only
checked for existence. -/
theorem registrarPaciente_propietario (e : Entorno) (req : Req) (s : Almacen)
    (h : (registrarPaciente e req s).respuestas
      = [⟨200, Carga.msg "Registro exitoso del paciente"⟩]) :
    ∃ nuevo, (registrarPaciente e req s).almacen.pacientes = s.pacientes ++ [nuevo] ∧
      nuevo.veterinario = req.body.lookup "id" := by
  refine ⟨(nuevoPaciente e req.body).conVeterinario (req.body.lookup "id"), ?_,
    veterinario_conVeterinario _ _⟩
  by_cases h1 : tieneVacio req.body = true
  · simp [registrarPaciente, h1] at h
  by_cases h2 : e.falla (Op.vetFindById req.veterinarioBDD._id) = true
  · simp [registrarPaciente, h1, h2] at h
  cases h3 : s.veterinarios.find? (fun w => w._id == req.veterinarioBDD._id) with
  | none => simp [registrarPaciente, h1, h2, h3] at h
  | some w =>
    by_cases h4 : (e.falla (Op.save ((nuevoPaciente e req.body).conVeterinario
        (req.body.lookup "id"))) || s.pacientes.any (fun p => p._id ==
          ((nuevoPaciente e req.body).conVeterinario (req.body.lookup "id"))._id)) = true
    · simp only [registrarPaciente, h1, h2, h3, h4] at h
      simp at h
    · simp only [registrarPaciente, h1, h2, h3, h4]
      simp

/-- C3 fails on the code: `vet1` registers a patient with a body whose `id`
field is the id of `vet2`. The request succeeds, the new patient references
`vet2`, the list of `vet1` does not have it and the list of `vet2` has it. The
same body without an `id` field creates a patient with no owner at all. -/
theorem registrarPaciente_propietario_del_cuerpo :
    (registrarPaciente entornoEj ⟨"", [("nombre", Valor.str "Rex"),
        ("id", Valor.str vet2._id)], vet1⟩ almacenEj).respuestas
        = [⟨200, Carga.msg "Registro exitoso del paciente"⟩] ∧
      ((registrarPaciente entornoEj ⟨"", [("nombre", Valor.str "Rex"),
        ("id", Valor.str vet2._id)], vet1⟩ almacenEj).almacen.pacientes.map
          (fun p => (p._id, p.veterinario)))
        = [(pacMax._id, some (Valor.str vet2._id)),
           (entornoEj.nuevoId, some (Valor.str vet2._id))] ∧
      (listarPacientes entornoEj ⟨"", [], vet1⟩
        (registrarPaciente entornoEj ⟨"", [("nombre", Valor.str "Rex"),
          ("id", Valor.str vet2._id)], vet1⟩ almacenEj).almacen).respuestas
        = [⟨200, Carga.lista []⟩] ∧
      ((listarPacientes entornoEj ⟨"", [], vet2⟩
        (registrarPaciente entornoEj ⟨"", [("nombre", Valor.str "Rex"),
          ("id", Valor.str vet2._id)], vet1⟩ almacenEj).almacen).respuestas.map
          (fun r => match r.carga with
            | Carga.lista l => l.map (fun v => v._id)
            | _ => []))
        = [[pacMax._id, entornoEj.nuevoId]] ∧
      ((registrarPaciente entornoEj ⟨"", [("nombre", Valor.str "Rex")], vet1⟩
        almacenEj).almacen.pacientes.map (fun p => (p._id, p.veterinario)))
        = [(pacMax._id, some (Valor.str vet2._id)), (entornoEj.nuevoId, none)] := by
  decide

/-! ## Dispatch of the documentation routes -/

theorem montaje_empieza_con_barra (prefijo ruta interna : String)
    (h : montaje prefijo ruta = some interna) : ∃ r, interna.data = '/' :: r := by
  unfold montaje at h
  split at h
  · exact ⟨[], by rw [← Option.some.inj h]⟩
  · exact ⟨_, by rw [← Option.some.inj h]⟩
  · cases h

/-- The route of `swagger_routes.js` matches no path that starts with `/`. -/
theorem routerSwagger_sin_coincidencia (p : Peticion) (r : List Char)
    (h : p.ruta.data = '/' :: r) : routerSwagger p = none := by
  have hf : fichasDe "docs.json" = [Ficha.lit 'd', Ficha.lit 'o', Ficha.lit 'c', Ficha.lit 's',
      Ficha.lit '.', Ficha.lit 'j', Ficha.lit 's', Ficha.lit 'o', Ficha.lit 'n'] := by decide
  have hc : coincideRuta "docs.json" p.ruta = false := by
    unfold coincideRuta
    rw [hf, h]
    have hd : ('d'.toLower == '/'.toLower) = false := by decide
    simp [coincideFichas, hd]
  simp [routerSwagger, hc]

/-- No request is dispatched to `swaggerDocs`, whatever the veterinarian router
answers. -/
theorem despachar_nunca_swaggerDocs (vets : Peticion → Bool) (p : Peticion) :
    despachar vets p ≠ Destino.swaggerDocs := by
  have hpac : ∀ q, routerPacientes q ≠ some Destino.swaggerDocs := by
    intro q
    unfold routerPacientes
    repeat' split
    all_goals simp
  unfold despachar
  split
  · simp
  · cases hm : montaje "/api" p.ruta with
    | none =>
      simp only []
      split <;> simp
    | some interna =>
      obtain ⟨r, hr⟩ := montaje_empieza_con_barra _ _ _ hm
      have hsw : routerSwagger ⟨p.metodo, interna⟩ = none :=
        routerSwagger_sin_coincidencia ⟨p.metodo, interna⟩ r hr
      simp only [hsw]
      cases hv : vets ⟨p.metodo, interna⟩ with
      | true => simp
      | false =>
        cases hp : routerPacientes ⟨p.metodo, interna⟩ with
        | none =>
          by_cases hmd : (montaje "/api/docs" p.ruta).isSome = true <;>
            simp [Option.orElse, hmd]
        | some d =>
          have hne := hpac ⟨p.metodo, interna⟩
          rw [hp] at hne
          simp only [Option.orElse]
          intro hd
          exact hne (by simpa using hd)

/-- C9 fails on the code: `GET /api/docs.json` is not dispatched to
`swaggerDocs`. Unless the veterinarian router answers it, the request reaches
the catch-all handler, which answers 404 `Endpoint no encontrado - 404`. -/
theorem docs_json_no_encontrado (vets : Peticion → Bool) :
    despachar vets ⟨Metodo.GET, "/api/docs.json"⟩
        = (if vets ⟨Metodo.GET, "/docs.json"⟩ then Destino.veterinarios
           else Destino.noEncontrado) ∧
      despachar (fun _ => false) ⟨Metodo.GET, "/api/docs.json"⟩ = Destino.noEncontrado ∧
      respuestaDe Destino.noEncontrado
        = some (404, CuerpoHttp.texto "Endpoint no encontrado - 404") ∧
      routerSwagger ⟨Metodo.GET, "/docs.json"⟩ = none := by
  have h0 : (esGet Metodo.GET && coincideRuta "/" "/api/docs.json") = false := by decide
  have h1 : montaje "/api" "/api/docs.json" = some "/docs.json" := by decide
  have h2 : routerPacientes ⟨Metodo.GET, "/docs.json"⟩ = none := by decide
  have h3 : routerSwagger ⟨Metodo.GET, "/docs.json"⟩ = none := by decide
  have h4 : (montaje "/api/docs" "/api/docs.json").isSome = false := by decide
  refine ⟨?_, by decide, rfl, h3⟩
  unfold despachar
  simp only [h0, h1, h2, h3, h4]
  by_cases hv : vets ⟨Metodo.GET, "/docs.json"⟩ = true
  · simp [hv]
  · simp [hv]

end FinalLab
